import Mathlib

/-!
Verification of the Diferencia request-dispatch and comparison engine.

The definitions below are a shallow embedding of `core/proxy.go`
(`Difference`, `NewDifference`, `DiferenciaConfiguration`, `isSafeOperation`,
`compareResult`, `Diferencia`, `diferenciaHandler`) together with models of
the collaborating packages that the core calls but whose sources are not in
this snapshot (the `difference/json` comparison and noise engine, the
`exporter` package, URL rewriting, and the richer `Result`-producing
dispatcher and `UpdateConfiguration` referenced by `core/proxy_test.go`).
Modelled definitions carry a doc comment starting `Modelled from the spec:`.

Go byte slices are modelled as `String` (byte-exact equality), Go `int` as
`Int`, and HTTP headers as association lists `List (String × List String)`.
-/

/-- `Difference` is a Go `int`-backed enumeration of the diff algorithm. -/
abbrev Difference := Int

/-- Strict mode: everything should be exactly the same (proxy.go line 47). -/
def Strict : Difference := 0
/-- Subset mode: the candidate must be a subset of primary (proxy.go line 49). -/
def Subset : Difference := 1
/-- Schema mode: the schema must be equal but not the values (proxy.go line 51). -/
def Schema : Difference := 2

/-- The `names` array of `Difference.String` (proxy.go lines 19–22). -/
def differenceNames : List String := ["Strict", "Subset", "Schema"]

/-- `Difference.String` with the array indexing made explicit: Go's
`names[difference]` is `differenceNames.get? difference.toNat`, and a `none`
result would correspond to an index-out-of-range panic (proxy.go lines 18–28,
the range guard at line 24 precedes the indexing at line 27). -/
def differenceStringChecked (difference : Difference) : Option String :=
  if difference < Strict || difference > Schema then some "Unknown"
  else differenceNames.get? difference.toNat

/-- `Difference.String` (proxy.go lines 18–28); total because the range guard
makes the index safe, see `c10_difference_codec`. -/
def Difference.String (difference : Difference) : String :=
  (differenceStringChecked difference).getD "Unknown"

/-- `NewDifference` creator from String (proxy.go lines 31–43). -/
def NewDifference (difference : String) : Except String Difference :=
  match difference with
  | "Strict" => .ok Strict
  | "Subset" => .ok Subset
  | "Schema" => .ok Schema
  | _ => .error ("Cannot find " ++ difference ++ " difference mode")

/-- `DiferenciaConfiguration` (proxy.go lines 55–62).  The `Headers`,
`IgnoreValues` and `IgnoreValuesFile` fields do not appear in this snapshot
of `proxy.go` but are referenced by `proxy_test.go` and §3 of the spec; they
are carried here for the spec-modelled dispatcher and are ignored by the
embedding of the snapshot's `Diferencia`. -/
structure DiferenciaConfiguration where
  Port : Int
  Primary : String
  Secondary : String
  Candidate : String
  StoreResults : String
  DifferenceMode : Difference
  NoiseDetection : Bool
  AllowUnsafeOperations : Bool
  Headers : Bool := false
  IgnoreValues : List String := []

/-- `IsStoreResultsSet` (proxy.go lines 65–67). -/
def DiferenciaConfiguration.IsStoreResultsSet (conf : DiferenciaConfiguration) : Bool :=
  0 < conf.StoreResults.length

/-- `isSafeOperation` (proxy.go lines 219–221). -/
def isSafeOperation (method : String) : Bool :=
  method == "GET" || method == "OPTIONS" || method == "HEAD"

/-- Modelled from the spec: parsed JSON documents (§4.2).  The source's
`difference/json` package is not in this snapshot.  Numbers keep their
lexeme so no floating point is involved; objects are association lists
(Go decodes objects into maps, so the parser below makes later duplicate
keys win, matching `encoding/json`). -/
inductive Json where
  | null
  | bool (b : Bool)
  | num (lexeme : String)
  | str (s : String)
  | arr (items : List Json)
  | obj (fields : List (String × Json))

/-- Modelled from the spec: the three comparison semantics (§4.2). -/
inductive DiffMode where
  | strict
  | subset
  | schema
deriving DecidableEq, Repr

/-- Modelled from the spec: the comparison engine receives the mode as the
string produced by `Difference.String` (proxy.go line 183); names other than
the three valid ones (only "Unknown" is reachable from the dispatcher) are
treated as Strict. -/
def modeOfString (mode : String) : DiffMode :=
  match mode with
  | "Subset" => .subset
  | "Schema" => .schema
  | _ => .strict

/-- Whether an association list of JSON object fields contains a key. -/
def containsKey (k : String) (fields : List (String × Json)) : Bool :=
  fields.any (fun kv => kv.1 == k)

mutual
/-- Modelled from the spec: recursive comparison of two parsed JSON
documents under one mode, applied at every node (§4.2 table).  The first
document is Primary's, the second Candidate's: Subset requires every
Primary field/element to match in Candidate. -/
def cmpJson : DiffMode → Json → Json → Bool
  | _, .null, .null => true
  | .schema, .bool _, .bool _ => true
  | _, .bool pb, .bool cb => pb == cb
  | .schema, .num _, .num _ => true
  | _, .num pl, .num cl => pl == cl
  | .schema, .str _, .str _ => true
  | _, .str ps, .str cs => ps == cs
  | m, .arr ps, .arr cs => cmpArr m ps cs
  | m, .obj ps, .obj cs =>
    (match m with
     | .subset => true
     | _ => cs.all (fun kv => containsKey kv.1 ps)) && cmpFields m ps cs
  | _, _, _ => false
termination_by _ p c => sizeOf p + sizeOf c

/-- Array comparison: positional; Strict and Schema require equal lengths,
Subset allows Candidate to have extra trailing elements (§4.2). -/
def cmpArr : DiffMode → List Json → List Json → Bool
  | _, [], [] => true
  | .subset, [], _ => true
  | m, p :: ps, c :: cs => cmpJson m p c && cmpArr m ps cs
  | _, _, _ => false
termination_by _ ps cs => sizeOf ps + sizeOf cs

/-- Every Primary field must have a matching field in Candidate. -/
def cmpFields : DiffMode → List (String × Json) → List (String × Json) → Bool
  | _, [], _ => true
  | m, (k, pv) :: rest, cs => cmpFieldIn m k pv cs && cmpFields m rest cs
termination_by _ ps cs => sizeOf ps + sizeOf cs

/-- A field matches when Candidate has the same key with a matching value. -/
def cmpFieldIn : DiffMode → String → Json → List (String × Json) → Bool
  | _, _, _, [] => false
  | m, k, pv, (ck, cv) :: rest => (k == ck && cmpJson m pv cv) || cmpFieldIn m k pv rest
termination_by _ _ pv cs => sizeOf pv + sizeOf cs
end

theorem containsKey_of_mem {k : String} {v : Json} {fields : List (String × Json)}
    (h : (k, v) ∈ fields) : containsKey k fields = true := by
  simp only [containsKey, List.any_eq_true]
  exact ⟨(k, v), h, by simp⟩

theorem cmpFieldIn_of_mem (m : DiffMode) {k : String} {v : Json}
    {cs : List (String × Json)} (hmem : (k, v) ∈ cs) (hv : cmpJson m v v = true) :
    cmpFieldIn m k v cs = true := by
  induction cs with
  | nil => cases hmem
  | cons kv rest ih =>
    obtain ⟨ck, cv⟩ := kv
    rcases List.mem_cons.mp hmem with h | h
    · obtain ⟨rfl, rfl⟩ := Prod.mk.injEq .. ▸ h
      simp [cmpFieldIn, hv]
    · simp [cmpFieldIn, ih h]

theorem cmpFields_of_forall (m : DiffMode) {ps cs : List (String × Json)}
    (h : ∀ kv ∈ ps, cmpFieldIn m kv.1 kv.2 cs = true) : cmpFields m ps cs = true := by
  induction ps with
  | nil => simp [cmpFields]
  | cons kv rest ih =>
    obtain ⟨k, v⟩ := kv
    simp only [cmpFields, Bool.and_eq_true]
    exact ⟨h (k, v) (by simp), ih fun kv2 hkv2 => h kv2 (List.mem_cons_of_mem _ hkv2)⟩

theorem cmpArr_of_forall (m : DiffMode) {xs : List Json}
    (h : ∀ x ∈ xs, cmpJson m x x = true) : cmpArr m xs xs = true := by
  induction xs with
  | nil => cases m <;> simp [cmpArr]
  | cons x rest ih =>
    simp only [cmpArr, Bool.and_eq_true]
    exact ⟨h x (by simp), ih fun y hy => h y (List.mem_cons_of_mem _ hy)⟩

/-- Every JSON document compares equal to itself in every mode. -/
theorem cmpJson_refl (m : DiffMode) (j : Json) : cmpJson m j j = true := by
  match j with
  | .null => cases m <;> simp [cmpJson]
  | .bool b => cases m <;> simp [cmpJson]
  | .num s => cases m <;> simp [cmpJson]
  | .str s => cases m <;> simp [cmpJson]
  | .arr xs =>
    have h : ∀ x ∈ xs, cmpJson m x x = true := fun x hx => cmpJson_refl m x
    have := cmpArr_of_forall m h
    cases m <;> simpa [cmpJson]
  | .obj fs =>
    have h : ∀ kv ∈ fs, cmpFieldIn m kv.1 kv.2 fs = true := fun kv hkv => by
      obtain ⟨k, v⟩ := kv
      exact cmpFieldIn_of_mem m hkv (cmpJson_refl m v)
    have hf := cmpFields_of_forall m h
    have hk : ∀ kv ∈ fs, containsKey kv.1 fs = true := fun kv hkv => by
      obtain ⟨k, v⟩ := kv
      exact containsKey_of_mem hkv
    cases m <;> simp_all [cmpJson, List.all_eq_true] <;> exact fun a b hab => hk a b hab
termination_by sizeOf j
decreasing_by
  all_goals
    simp_wf
    first
      | (have hlt := List.sizeOf_lt_of_mem hx; omega)
      | (have hlt := List.sizeOf_lt_of_mem hkv; simp at hlt; omega)

/-- JSON insignificant whitespace. -/
def isJsonWs (c : Char) : Bool :=
  c == ' ' || c == '\t' || c == '\n' || c == '\r'

/-- Drop leading JSON whitespace. -/
def skipWs : List Char → List Char
  | [] => []
  | c :: cs => if isJsonWs c then skipWs cs else c :: cs

/-- The `"` character. -/
def quoteChar : Char := Char.ofNat 34
/-- The `\x5c` (backslash) character. -/
def backslashChar : Char := Char.ofNat 92
/-- The `\x7b` (opening brace) character. -/
def lbraceChar : Char := Char.ofNat 123
/-- The `\x7d` (closing brace) character. -/
def rbraceChar : Char := Char.ofNat 125

/-- Consume a JSON string literal after its opening quote.  Escape pairs are
kept as the escaped character (enough structure for byte-exact comparison of
re-serialized documents; full unescaping is irrelevant to the claims). -/
def takeStringLit : List Char → List Char → Option (String × List Char)
  | _, [] => none
  | acc, c :: cs =>
    if c == quoteChar then some (String.mk acc.reverse, cs)
    else if c == backslashChar then
      match cs with
      | [] => none
      | e :: cs2 => takeStringLit (e :: acc) cs2
    else takeStringLit (c :: acc) cs

/-- Characters allowed inside a JSON number lexeme. -/
def isNumChar (c : Char) : Bool :=
  c.isDigit || c == '-' || c == '+' || c == '.' || c == 'e' || c == 'E'

/-- Take the longest run of number characters. -/
def takeNum : List Char → List Char × List Char
  | [] => ([], [])
  | c :: cs =>
    if isNumChar c then
      let (xs, rest) := takeNum cs
      (c :: xs, rest)
    else ([], c :: cs)

mutual
/-- Modelled from the spec: a recursive-descent JSON reader standing in for
Go's `encoding/json` decoding, used by the comparison and noise engines
(§4.2–§4.3).  The fuel argument bounds nesting; `parseJson` supplies fuel
ample for its input. -/
def parseVal : Nat → List Char → Option (Json × List Char)
  | 0, _ => none
  | fuel + 1, input =>
    match skipWs input with
    | 'n' :: 'u' :: 'l' :: 'l' :: rest => some (.null, rest)
    | 't' :: 'r' :: 'u' :: 'e' :: rest => some (.bool true, rest)
    | 'f' :: 'a' :: 'l' :: 's' :: 'e' :: rest => some (.bool false, rest)
    | [] => none
    | c :: cs =>
      if c == quoteChar then
        match takeStringLit [] cs with
        | some (s, rest) => some (.str s, rest)
        | none => none
      else if c == lbraceChar then
        match skipWs cs with
        | [] => none
        | d :: ds =>
          if d == rbraceChar then some (.obj [], ds)
          else parseObjItems fuel (d :: ds) []
      else if c == '[' then
        match skipWs cs with
        | ']' :: ds => some (.arr [], ds)
        | other => parseArrItems fuel other []
      else if c.isDigit || c == '-' then
        match takeNum (c :: cs) with
        | (lex, rest) => if lex.isEmpty then none else some (.num (String.mk lex), rest)
      else none

/-- Parse the fields of an object after its opening brace (later duplicate
keys win, as with Go's map decoding). -/
def parseObjItems : Nat → List Char → List (String × Json) → Option (Json × List Char)
  | 0, _, _ => none
  | fuel + 1, input, acc =>
    match skipWs input with
    | [] => none
    | c :: cs =>
      if c == quoteChar then
        match takeStringLit [] cs with
        | none => none
        | some (k, rest) =>
          match skipWs rest with
          | ':' :: rest2 =>
            match parseVal fuel rest2 with
            | none => none
            | some (v, rest3) =>
              let acc2 := acc.filter (fun kv => kv.1 != k) ++ [(k, v)]
              match skipWs rest3 with
              | ',' :: rest4 => parseObjItems fuel rest4 acc2
              | [] => none
              | d :: rest4 => if d == rbraceChar then some (.obj acc2, rest4) else none
          | _ => none
      else none

/-- Parse the elements of an array after its opening bracket. -/
def parseArrItems : Nat → List Char → List Json → Option (Json × List Char)
  | 0, _, _ => none
  | fuel + 1, input, acc =>
    match parseVal fuel input with
    | none => none
    | some (v, rest) =>
      match skipWs rest with
      | ',' :: rest2 => parseArrItems fuel rest2 (acc ++ [v])
      | ']' :: rest2 => some (.arr (acc ++ [v]), rest2)
      | _ => none
end

/-- Modelled from the spec: decode a body's bytes as a JSON document; `none`
models a decoding failure (§4.2: either side failing to parse as JSON). -/
def parseJson (s : String) : Option Json :=
  match parseVal (2 * s.length + 4) s.toList with
  | some (j, rest) => if (skipWs rest).isEmpty then some j else none
  | none => none

example : parseJson "\x7b\"a\":1\x7d" = some (.obj [("a", .num "1")]) := rfl
example : parseJson "hello" = none := rfl
example : parseJson " [true, null] " = some (.arr [.bool true, .null]) := rfl

/-- Escape a string's characters for serialization. -/
def escapeChars : List Char → List Char
  | [] => []
  | c :: cs =>
    if c == quoteChar || c == backslashChar then backslashChar :: c :: escapeChars cs
    else c :: escapeChars cs

/-- Quote a string for serialization. -/
def quoteStr (s : String) : String :=
  String.mk (quoteChar :: escapeChars s.toList) ++ String.mk [quoteChar]

/-- Modelled from the spec: re-serialize a document after noise removal
(§4.3 `Remove` "re-serializes both sides").  Fuel-bounded recursion; callers
supply fuel larger than the document's depth. -/
def serRun : Nat → Json → String
  | 0, _ => ""
  | fuel + 1, j =>
    match j with
    | .null => "null"
    | .bool true => "true"
    | .bool false => "false"
    | .num lex => lex
    | .str s => quoteStr s
    | .arr xs => "[" ++ String.intercalate "," (xs.map (fun x => serRun fuel x)) ++ "]"
    | .obj fs =>
      String.mk [lbraceChar] ++
        String.intercalate "," (fs.map (fun kv => quoteStr kv.1 ++ ":" ++ serRun fuel kv.2)) ++
        String.mk [rbraceChar]

/-- First field value stored under a key. -/
def lookupField (k : String) : List (String × Json) → Option Json
  | [] => none
  | (k2, v) :: rest => if k == k2 then some v else lookupField k rest

/-- Escape one JSON pointer segment (RFC 6901: `~`→`~0`, `/`→`~1`). -/
def ptrEscapeChars : List Char → List Char
  | [] => []
  | c :: cs =>
    if c == '~' then '~' :: '0' :: ptrEscapeChars cs
    else if c == '/' then '~' :: '1' :: ptrEscapeChars cs
    else c :: ptrEscapeChars cs

/-- Escape a key into a pointer segment. -/
def escapeSeg (s : String) : String := String.mk (ptrEscapeChars s.toList)

/-- Modelled from the spec: the divergence-list form of the JSON differ
under Strict semantics (§4.2(b), §4.3 `Detect`): depth-first, left-to-right
list of JSON pointers at which the two documents diverge. -/
def diffRun : Nat → String → Json → Json → List String
  | 0, _, _, _ => []
  | fuel + 1, ptr, p, c =>
    match p, c with
    | .null, .null => []
    | .bool pb, .bool cb => if pb == cb then [] else [ptr]
    | .num pl, .num cl => if pl == cl then [] else [ptr]
    | .str ps, .str cs => if ps == cs then [] else [ptr]
    | .arr ps, .arr cs =>
      ((ps.zip cs).enum.map
        (fun ic => diffRun fuel (ptr ++ "/" ++ Nat.repr ic.1) ic.2.1 ic.2.2)).flatten ++
      (List.range' (min ps.length cs.length)
        (max ps.length cs.length - min ps.length cs.length)).map
        (fun i => ptr ++ "/" ++ Nat.repr i)
    | .obj ps, .obj cs =>
      (ps.map (fun kv =>
        match lookupField kv.1 cs with
        | some cv => diffRun fuel (ptr ++ "/" ++ escapeSeg kv.1) kv.2 cv
        | none => [ptr ++ "/" ++ escapeSeg kv.1])).flatten ++
      (cs.map (fun kv =>
        if containsKey kv.1 ps then [] else [ptr ++ "/" ++ escapeSeg kv.1])).flatten
    | _, _ => [ptr]

/-- Unescape a JSON pointer segment. -/
def unescapeSeg : List Char → List Char
  | [] => []
  | '~' :: '0' :: cs => '~' :: unescapeSeg cs
  | '~' :: '1' :: cs => '/' :: unescapeSeg cs
  | c :: cs => c :: unescapeSeg cs

/-- Split a list of characters at `/`. -/
def splitSegsAux : List Char → List Char → List String
  | acc, [] => [String.mk acc.reverse]
  | acc, c :: cs =>
    if c == '/' then String.mk acc.reverse :: splitSegsAux [] cs
    else splitSegsAux (c :: acc) cs

/-- Split a JSON pointer into unescaped segments; the empty pointer
addresses the root and has no segments. -/
def splitPointer (p : String) : List String :=
  match p.toList with
  | [] => []
  | '/' :: rest => (splitSegsAux [] rest).map (fun s => String.mk (unescapeSeg s.toList))
  | other => (splitSegsAux [] other).map (fun s => String.mk (unescapeSeg s.toList))

/-- Modelled from the spec: delete the target of an exact pointer from a
document, ignoring missing targets silently (§4.3 `Remove`). -/
def remRun : Nat → List String → Json → Json
  | 0, _, j => j
  | _ + 1, [], j => j
  | _ + 1, [seg], .obj fs => .obj (fs.filter (fun kv => kv.1 != seg))
  | _ + 1, [seg], .arr xs =>
    (match seg.toNat? with
     | some i => .arr (xs.eraseIdx i)
     | none => .arr xs)
  | _ + 1, [_], j => j
  | fuel + 1, seg :: rest, .obj fs =>
    .obj (fs.map (fun kv => if kv.1 == seg then (kv.1, remRun fuel rest kv.2) else kv))
  | fuel + 1, seg :: rest, .arr xs =>
    (match seg.toNat? with
     | some i => .arr (xs.enum.map (fun ix => if ix.1 == i then remRun fuel rest ix.2 else ix.2))
     | none => .arr xs)
  | _ + 1, _ :: _, j => j

/-- Modelled from the spec: a trailing-wildcard pattern removes every
matching child at the addressed location (§4.3 manual overlay with §4.1
patterns). -/
def clearRun : Nat → List String → Json → Json
  | 0, _, j => j
  | _ + 1, [], .obj _ => .obj []
  | _ + 1, [], .arr _ => .arr []
  | _ + 1, [], j => j
  | fuel + 1, seg :: rest, .obj fs =>
    .obj (fs.map (fun kv => if kv.1 == seg then (kv.1, clearRun fuel rest kv.2) else kv))
  | fuel + 1, seg :: rest, .arr xs =>
    (match seg.toNat? with
     | some i => .arr (xs.enum.map (fun ix => if ix.1 == i then clearRun fuel rest ix.2 else ix.2))
     | none => .arr xs)
  | _ + 1, _ :: _, j => j

/-- Remove one pattern (exact pointer or trailing wildcard) from a document. -/
def removePattern (fuel : Nat) (pattern : String) (doc : Json) : Json :=
  let segs := splitPointer pattern
  match segs.getLast? with
  | some "*" => clearRun fuel segs.dropLast doc
  | _ => remRun fuel segs doc

/-- Modelled from the spec: one side of `NoiseOperation.Remove` (§4.3):
parse the body, delete each noise path, re-serialize.  A body that does not
parse is returned unchanged (the Go caller ignores `Remove`'s error,
proxy.go line 148). -/
def removeDoc (paths : List String) (body : String) : String :=
  match parseJson body with
  | none => body
  | some j =>
    let fuel := body.length + 4
    serRun fuel (paths.foldl (fun d p => removePattern fuel p d) j)

/-- Modelled from the spec: `NoiseOperation.Detect` (§4.3): the divergence
list of the two baseline bodies under Strict semantics regardless of the
configured mode; an error when either body does not parse as JSON. -/
def detectNoise (primaryBody secondaryBody : String) : Except String (List String) :=
  match parseJson primaryBody, parseJson secondaryBody with
  | some pj, some sj =>
    .ok (diffRun (primaryBody.length + secondaryBody.length + 4) "" pj sj)
  | _, _ => .error "one of the bodies cannot be parsed as a JSON document"

/-- Modelled from the spec: `NoiseOperation.Remove` applied to the Primary
and Candidate bodies (§4.3): the same paths are deleted on both sides. -/
def removeNoise (paths : List String) (primaryBody candidateBody : String) :
    String × String :=
  (removeDoc paths primaryBody, removeDoc paths candidateBody)

/-- Modelled from the spec: `json.CompareDocuments(candidate, primary,
mode)` (§4.2): boolean verdict; on either side failing to parse as JSON it
falls back to byte equality. -/
def CompareDocuments (candidate primary : String) (mode : String) : Bool :=
  match parseJson candidate, parseJson primary with
  | some cj, some pj => cmpJson (modeOfString mode) pj cj
  | _, _ => candidate == primary

/-- Byte-identical bodies always compare equal, in every mode. -/
theorem CompareDocuments_self (s mode : String) : CompareDocuments s s mode = true := by
  unfold CompareDocuments
  cases h : parseJson s <;> simp [cmpJson_refl]

example : detectNoise "\x7b\"a\":1,\"b\":2\x7d" "\x7b\"a\":1,\"b\":3\x7d" = .ok ["/b"] := rfl
example : removeDoc ["/b"] "\x7b\"a\":1,\"b\":2\x7d" = "\x7b\"a\":1\x7d" := rfl

/-- Modelled from the spec: `CreateUrl(*r.URL, base)` rewrites the inbound
URL against an upstream base (§4.5 step 2); the function lives outside this
snapshot.  Modelled as prefixing the base to the request's path. -/
def CreateUrl (url : String) (base : String) : String := base ++ url

/-- A captured upstream response: the non-error results of `getContent`
(proxy.go lines 223–236): body bytes, status code, header map, and the
elapsed time the spec's Upstream Client reports (§4.4). -/
structure UpstreamResponse where
  body : String
  status : Int
  headers : List (String × List String) := []
  elapsed : Int := 1
deriving DecidableEq, Repr

/-- The stubbed upstream world: what `getContent` yields per upstream.  An
`Except.error` covers both a failing `MakeRequest` and a body that cannot
be read — `getContent` folds both into a non-nil `err` (proxy.go lines
223–236). -/
structure Env where
  primary : Except String UpstreamResponse
  candidate : Except String UpstreamResponse
  secondary : Except String UpstreamResponse
deriving Repr

/-- The incoming `*http.Request`: the dispatcher reads only method and URL. -/
structure Request where
  Method : String
  URL : String
deriving DecidableEq, Repr

/-- `DiferenciaError` (proxy.go lines 86–89). -/
structure DiferenciaError where
  code : Int
  message : String
deriving DecidableEq, Repr

/-- `(*DiferenciaError).Error()` (proxy.go lines 91–93). -/
def DiferenciaError.Error (e : DiferenciaError) : String :=
  "with message: " ++ e.message ++ ", and code " ++ toString e.code

/-- Modelled from the spec: `exporter.CreateInteraction(url, body, status)`
(§3 "Interaction"; the exporter package is outside this snapshot). -/
structure Interaction where
  url : String
  content : String
  status : Int
deriving DecidableEq, Repr

/-- Modelled from the spec: the record `exporter.CreateInteractions(primary,
&secondary, candidate, mode, result)` hands to the exporter (§4.5 step 8). -/
structure Interactions where
  primary : Interaction
  secondary : Interaction
  candidate : Interaction
  mode : String
  result : Bool
deriving DecidableEq, Repr

/-- `exporter.CreateInteraction` applied to its three arguments. -/
def CreateInteraction (url : String) (bodyContent : String) (status : Int) :
    Interaction := ⟨url, bodyContent, status⟩

/-- `exporter.CreateInteractions` applied to its five arguments. -/
def CreateInteractions (primary secondary candidate : Interaction)
    (mode : String) (result : Bool) : Interactions :=
  ⟨primary, secondary, candidate, mode, result⟩

/-- Observable actions of one dispatcher run: upstream calls issued through
`HttpClient.MakeRequest` (inside `getContent`) and invocations of
`compareResult`. -/
inductive Event where
  | makeRequest (url : String)
  | compareBodies
deriving DecidableEq, Repr

/-- Everything one call of the snapshot's `Diferencia` produces: the bool
verdict, the returned error (`none` models Go's nil), what was handed to
the exporter, and the trace of observable actions. -/
structure SrcOutcome where
  verdict : Bool
  err : Option DiferenciaError
  exported : Option Interactions
  trace : List Event
deriving DecidableEq, Repr

/-- `compareResult` (proxy.go lines 180–186): equal status codes delegate to
the JSON document comparison under the configured mode's name; different
status codes yield false immediately.  The global `Config` is passed
explicitly. -/
def compareResult (conf : DiferenciaConfiguration) (candidate primary : String)
    (candidateStatus primaryStatus : Int) : Bool :=
  if primaryStatus == candidateStatus then
    CompareDocuments candidate primary (Difference.String conf.DifferenceMode)
  else false

/-- The snapshot's `Diferencia(r)` (proxy.go lines 95–178), with the globals
`Config` and `HttpClient` passed explicitly as `conf` and `env`.

The Go function declares `secondaryFullURL`, `secondaryBodyContent` and
`secondaryStatus` before the noise branch (lines 125–127), but the branch
re-declares all three with `:=` (lines 131–133), so the outer variables
keep their zero values `""`, `nil`, `0`; the export block (lines 160–172)
reads the outer variables, hence the exported secondary interaction is
always built from `("", "", 0)`. -/
def Diferencia (conf : DiferenciaConfiguration) (r : Request) (env : Env) :
    SrcOutcome :=
  if !conf.AllowUnsafeOperations && !isSafeOperation r.Method then
    { verdict := false
      err := some ⟨405, "Unsafe operations are not allowed and " ++ r.Method ++
        " method has been received"⟩
      exported := none
      trace := [] }
  else
    let primaryFullURL := CreateUrl r.URL conf.Primary
    match env.primary with
    | .error e =>
      { verdict := false
        err := some ⟨503, "Error while connecting to Primary site (" ++
          primaryFullURL ++ ") with " ++ e⟩
        exported := none
        trace := [.makeRequest primaryFullURL] }
    | .ok primaryRes =>
      let candidateFullURL := CreateUrl r.URL conf.Candidate
      match env.candidate with
      | .error e =>
        { verdict := false
          err := some ⟨503, "Error while connecting to Candidate site (" ++
            candidateFullURL ++ ") with " ++ e⟩
          exported := none
          trace := [.makeRequest primaryFullURL, .makeRequest candidateFullURL] }
      | .ok candidateRes =>
        let inner : Except (DiferenciaError × List Event) (Bool × List Event) :=
          if conf.NoiseDetection then
            let secondaryFullURL := CreateUrl r.URL conf.Secondary
            match env.secondary with
            | .error e =>
              -- the Go message interpolates candidateFullURL here (lines 135–136)
              .error (⟨503, "Error while connecting to Secondary site (" ++
                  candidateFullURL ++ ") with error " ++ e⟩,
                [.makeRequest secondaryFullURL])
            | .ok secondaryRes =>
              if primaryRes.status == secondaryRes.status then
                match detectNoise primaryRes.body secondaryRes.body with
                | .error e =>
                  .error (⟨400, "Error detecting noise between " ++ primaryFullURL ++
                      " and " ++ secondaryFullURL ++ ". (" ++ e ++ ")"⟩,
                    [.makeRequest secondaryFullURL])
                | .ok noisePaths =>
                  let cleaned := removeNoise noisePaths primaryRes.body candidateRes.body
                  .ok (compareResult conf cleaned.2 cleaned.1 candidateRes.status
                      primaryRes.status,
                    [.makeRequest secondaryFullURL, .compareBodies])
              else
                .error (⟨400, "Status code between " ++ primaryFullURL ++ "(" ++
                    toString primaryRes.status ++ ") and " ++ secondaryFullURL ++ "(" ++
                    toString secondaryRes.status ++ ") are different"⟩,
                  [.makeRequest secondaryFullURL])
          else
            .ok (compareResult conf candidateRes.body primaryRes.body
                candidateRes.status primaryRes.status,
              [.compareBodies])
        let baseTrace := [Event.makeRequest primaryFullURL,
          Event.makeRequest candidateFullURL]
        match inner with
        | .error (de, tr) =>
          { verdict := false, err := some de, exported := none,
            trace := baseTrace ++ tr }
        | .ok (result, tr) =>
          let exported :=
            if conf.IsStoreResultsSet then
              some (CreateInteractions
                (CreateInteraction primaryFullURL primaryRes.body primaryRes.status)
                (CreateInteraction "" "" 0)
                (CreateInteraction candidateFullURL candidateRes.body candidateRes.status)
                (Difference.String conf.DifferenceMode) result)
            else none
          { verdict := result, err := none, exported := exported,
            trace := baseTrace ++ tr }

/-- The state of an `http.ResponseWriter`: every `WriteHeader` call in
order, and the accumulated body.  Go's `net/http` honors only the first
`WriteHeader` call and logs the rest as superfluous; the embedding records
all calls the handler makes. -/
structure ResponseWriter where
  statusWrites : List Int
  body : String
deriving DecidableEq, Repr

/-- `diferenciaHandler` (proxy.go lines 188–207).  There is no `return`
after the error branch: on a `DiferenciaError` the handler writes the
error's code and message, then 500 and `err.Error()`, and then still falls
into the verdict write. -/
def diferenciaHandler (conf : DiferenciaConfiguration) (r : Request) (env : Env) :
    ResponseWriter :=
  let o := Diferencia conf r env
  let w : ResponseWriter := ⟨[], ""⟩
  let w : ResponseWriter :=
    match o.err with
    | some de =>
      let w1 : ResponseWriter := ⟨w.statusWrites ++ [de.code], w.body ++ de.message⟩
      ⟨w1.statusWrites ++ [500], w1.body ++ de.Error⟩
    | none => w
  if o.verdict then ⟨w.statusWrites ++ [200], w.body⟩
  else ⟨w.statusWrites ++ [412], w.body⟩

/-- C1: for every request whose method is not GET, OPTIONS or HEAD, when
`AllowUnsafeOperations` is false, `Diferencia` returns a false verdict with
a MethodNotAllowed error carrying HTTP code 405, exports nothing, and
contacts no upstream (the trace is empty, so no `MakeRequest` happens). -/
theorem c1_unsafe_method_rejected (conf : DiferenciaConfiguration) (r : Request)
    (env : Env) (hallow : conf.AllowUnsafeOperations = false)
    (hmeth : isSafeOperation r.Method = false) :
    Diferencia conf r env =
      { verdict := false
        err := some ⟨405, "Unsafe operations are not allowed and " ++ r.Method ++
          " method has been received"⟩
        exported := none
        trace := [] } := by
  simp [Diferencia, hallow, hmeth]

/-- Witness for C1: a POST request against a configuration that forbids
unsafe operations. -/
theorem c1_unsafe_method_rejected_witness :
    Diferencia
      ⟨8080, "http://p", "http://s", "http://c", "", Strict, false, false, false, []⟩
      ⟨"POST", "/x"⟩ ⟨.error "down", .error "down", .error "down"⟩ =
      { verdict := false
        err := some ⟨405, "Unsafe operations are not allowed and " ++ "POST" ++
          " method has been received"⟩
        exported := none
        trace := [] } :=
  c1_unsafe_method_rejected _ _ _ rfl rfl

/-- C5: whenever the Primary call fails, or the Candidate call fails, or —
with `NoiseDetection` — the Secondary call fails (`getContent` folds
transport errors and unreadable bodies into one error), `Diferencia`
returns a false verdict together with an error carrying HTTP code 503. -/
theorem c5_upstream_failure_503 (conf : DiferenciaConfiguration) (r : Request)
    (env : Env)
    (hsafe : (!conf.AllowUnsafeOperations && !isSafeOperation r.Method) = false) :
    (∀ e, env.primary = .error e →
      (Diferencia conf r env).verdict = false ∧
      ∃ de, (Diferencia conf r env).err = some de ∧ de.code = 503) ∧
    (∀ e p, env.primary = .ok p → env.candidate = .error e →
      (Diferencia conf r env).verdict = false ∧
      ∃ de, (Diferencia conf r env).err = some de ∧ de.code = 503) ∧
    (∀ e p c, conf.NoiseDetection = true → env.primary = .ok p →
      env.candidate = .ok c → env.secondary = .error e →
      (Diferencia conf r env).verdict = false ∧
      ∃ de, (Diferencia conf r env).err = some de ∧ de.code = 503) := by
  refine ⟨fun e he => ?_, fun e p hp hc => ?_, fun e p c hnoise hp hc hs => ?_⟩
  · simp [Diferencia, hsafe, he]
  · simp [Diferencia, hsafe, hp, hc]
  · simp [Diferencia, hsafe, hp, hc, hnoise, hs]

/-- Configuration for the C5 witness. -/
def c5Conf : DiferenciaConfiguration :=
  ⟨8080, "http://p", "http://s", "http://c", "", Strict, false, true, false, []⟩

/-- Request for the C5 witness. -/
def c5Req : Request := ⟨"GET", "/x"⟩

/-- Environment for the C5 witness: the Primary call fails. -/
def c5Env : Env :=
  ⟨.error "conn refused", .ok ⟨"1", 200, [], 1⟩, .ok ⟨"1", 200, [], 1⟩⟩

/-- Witness for C5: a failing Primary upstream. -/
theorem c5_upstream_failure_503_witness :
    (Diferencia c5Conf c5Req c5Env).verdict = false ∧
    ∃ de, (Diferencia c5Conf c5Req c5Env).err = some de ∧ de.code = 503 :=
  (c5_upstream_failure_503 c5Conf c5Req c5Env rfl).1 "conn refused" rfl

/-- C6: with `NoiseDetection` on and all three upstreams responding, if the
Primary and Secondary status codes differ, or noise detection fails (a body
does not parse as JSON), `Diferencia` returns a false verdict with an error
carrying HTTP code 400, and no Primary/Candidate body comparison runs. -/
theorem c6_noise_precondition_400 (conf : DiferenciaConfiguration) (r : Request)
    (env : Env)
    (hsafe : (!conf.AllowUnsafeOperations && !isSafeOperation r.Method) = false)
    (hnoise : conf.NoiseDetection = true)
    (p c s : UpstreamResponse) (hp : env.primary = .ok p)
    (hc : env.candidate = .ok c) (hs : env.secondary = .ok s) :
    (p.status ≠ s.status →
      (Diferencia conf r env).verdict = false ∧
      (∃ de, (Diferencia conf r env).err = some de ∧ de.code = 400) ∧
      Event.compareBodies ∉ (Diferencia conf r env).trace) ∧
    (∀ e, p.status = s.status → detectNoise p.body s.body = .error e →
      (Diferencia conf r env).verdict = false ∧
      (∃ de, (Diferencia conf r env).err = some de ∧ de.code = 400) ∧
      Event.compareBodies ∉ (Diferencia conf r env).trace) := by
  refine ⟨fun hstat => ?_, fun e hstat hdetect => ?_⟩
  · simp [Diferencia, hsafe, hnoise, hp, hc, hs, hstat]
  · simp [Diferencia, hsafe, hnoise, hp, hc, hs, hstat, hdetect]

/-- Configuration for the C6 witness. -/
def c6Conf : DiferenciaConfiguration :=
  ⟨8080, "http://p", "http://s", "http://c", "", Strict, true, true, false, []⟩

/-- Request for the C6 witness. -/
def c6Req : Request := ⟨"GET", "/x"⟩

/-- Environment for the C6 witness: Secondary answers 500 where Primary
answers 200. -/
def c6Env : Env :=
  ⟨.ok ⟨"1", 200, [], 1⟩, .ok ⟨"1", 200, [], 1⟩, .ok ⟨"1", 500, [], 1⟩⟩

/-- Witness for C6: Primary 200 against Secondary 500. -/
theorem c6_noise_precondition_400_witness :
    (Diferencia c6Conf c6Req c6Env).verdict = false ∧
    (∃ de, (Diferencia c6Conf c6Req c6Env).err = some de ∧ de.code = 400) ∧
    Event.compareBodies ∉ (Diferencia c6Conf c6Req c6Env).trace :=
  (c6_noise_precondition_400 c6Conf c6Req c6Env rfl rfl ⟨"1", 200, [], 1⟩
    ⟨"1", 200, [], 1⟩ ⟨"1", 500, [], 1⟩ rfl rfl rfl).1 (by decide)

/-- C10: the Difference codec round-trips on the three modes, rejects every
other name, and `Difference.String` never indexes out of bounds — the
checked indexing is always `some`, and every value outside
`[Strict, Schema]` maps to "Unknown". -/
theorem c10_difference_codec :
    (NewDifference (Difference.String Strict) = .ok Strict ∧
     NewDifference (Difference.String Subset) = .ok Subset ∧
     NewDifference (Difference.String Schema) = .ok Schema) ∧
    (∀ s : String, s ≠ "Strict" → s ≠ "Subset" → s ≠ "Schema" →
      ∃ e, NewDifference s = .error e) ∧
    (∀ d : Difference, (differenceStringChecked d).isSome = true) ∧
    (∀ d : Difference, d < Strict ∨ Schema < d → Difference.String d = "Unknown") := by
  refine ⟨⟨rfl, rfl, rfl⟩, fun s h1 h2 h3 => ?_, fun d => ?_, fun d hd => ?_⟩
  · unfold NewDifference
    split
    · exact absurd rfl h1
    · exact absurd rfl h2
    · exact absurd rfl h3
    · exact ⟨_, rfl⟩
  · unfold differenceStringChecked
    split
    · rfl
    · rename_i hrange
      simp only [Bool.or_eq_true, decide_eq_true_eq, not_or, not_lt, gt_iff_lt,
        Strict, Schema] at hrange
      have h1 : (0 : Int) ≤ d := hrange.1
      have h2 : (d : Int) ≤ 2 := hrange.2
      interval_cases d <;> rfl
  · unfold Difference.String differenceStringChecked
    rcases hd with h | h <;> simp [h, gt_iff_lt]

/-- Witness for C10: an arbitrary bad mode name is rejected. -/
theorem c10_difference_codec_witness :
    ∃ e, NewDifference "incorrect" = .error e :=
  c10_difference_codec.2.1 "incorrect" (by decide) (by decide) (by decide)

/-- Configuration for the C4 counterexample: noise detection is on. -/
def c4Conf : DiferenciaConfiguration :=
  ⟨8080, "http://p", "http://s", "http://c", "", Strict, true, true, false, []⟩

/-- Request for the C4 counterexample. -/
def c4Req : Request := ⟨"GET", "/now"⟩

/-- Environment for the C4 counterexample: Primary and Candidate answer the
byte-identical body with equal statuses, but the Secondary is unreachable. -/
def c4Env : Env :=
  ⟨.ok ⟨"\x7b\x7d", 200, [], 1⟩, .ok ⟨"\x7b\x7d", 200, [], 1⟩, .error "secondary down"⟩

/-- C4 as stated is false on the code: Primary and Candidate return
byte-identical bodies and equal status codes, yet with `NoiseDetection`
enabled and the Secondary unreachable `Diferencia` returns a false verdict
and a 503 error, not `equalContent = true`. -/
theorem c4_counterexample :
    c4Env.primary = .ok ⟨"\x7b\x7d", 200, [], 1⟩ ∧
    c4Env.candidate = .ok ⟨"\x7b\x7d", 200, [], 1⟩ ∧
    c4Conf.NoiseDetection = true ∧
    (Diferencia c4Conf c4Req c4Env).verdict = false ∧
    (Diferencia c4Conf c4Req c4Env).err = some ⟨503,
      "Error while connecting to Secondary site (http://c/now) with error secondary down"⟩ :=
  ⟨rfl, rfl, rfl, rfl, rfl⟩

/-- C4 amended: whenever Primary and Candidate return byte-identical bodies
and equal status codes and `Diferencia` returns without error (which with
`NoiseDetection` additionally requires the Secondary call to succeed with
Primary's status and noise detection to parse the bodies), the verdict is
true, regardless of the configured `DifferenceMode` and of whether
`NoiseDetection` is enabled. -/
theorem c4_identical_responses_equal (conf : DiferenciaConfiguration)
    (r : Request) (env : Env) (p c : UpstreamResponse)
    (hp : env.primary = .ok p) (hc : env.candidate = .ok c)
    (hbody : p.body = c.body) (hstatus : p.status = c.status)
    (hok : (Diferencia conf r env).err = none) :
    (Diferencia conf r env).verdict = true := by
  by_cases hgate : (!conf.AllowUnsafeOperations && !isSafeOperation r.Method) = true
  · rw [Diferencia] at hok
    simp [hgate] at hok
  · have hg : (!conf.AllowUnsafeOperations && !isSafeOperation r.Method) = false :=
      eq_false_of_ne_true hgate
    cases hnd : conf.NoiseDetection with
    | false =>
      have hcr : compareResult conf c.body p.body c.status p.status = true := by
        simp [compareResult, hstatus, hbody, CompareDocuments_self]
      simp [Diferencia, hg, hp, hc, hnd, hcr]
    | true =>
      cases hsec : env.secondary with
      | error e =>
        rw [Diferencia] at hok
        simp [hg, hp, hc, hnd, hsec] at hok
      | ok s =>
        by_cases hps : (p.status == s.status) = true
        · cases hdet : detectNoise p.body s.body with
          | error e =>
            rw [Diferencia] at hok
            simp [hg, hp, hc, hnd, hsec, hps, hdet] at hok
          | ok paths =>
            have hcr : compareResult conf (removeNoise paths p.body c.body).2
                (removeNoise paths p.body c.body).1 c.status p.status = true := by
              simp [removeNoise, compareResult, hstatus, hbody, CompareDocuments_self]
            simp [Diferencia, hg, hp, hc, hnd, hsec, hps, hdet, hcr]
        · rw [Diferencia] at hok
          simp [hg, hp, hc, hnd, hsec, hps] at hok

/-- Configuration for the C4 witness: noise detection off, Strict mode. -/
def c4wConf : DiferenciaConfiguration :=
  ⟨8080, "http://p", "http://s", "http://c", "", Strict, false, true, false, []⟩

/-- Request for the C4 witness. -/
def c4wReq : Request := ⟨"GET", "/now"⟩

/-- Environment for the C4 witness: byte-identical bodies and statuses. -/
def c4wEnv : Env :=
  ⟨.ok ⟨"hello", 200, [], 1⟩, .ok ⟨"hello", 200, [], 1⟩, .error "unused"⟩

/-- Witness for the amended C4: an error-free run on byte-identical
responses yields a true verdict. -/
theorem c4_identical_responses_equal_witness :
    (Diferencia c4wConf c4wReq c4wEnv).err = none ∧
    (Diferencia c4wConf c4wReq c4wEnv).verdict = true :=
  ⟨rfl, c4_identical_responses_equal c4wConf c4wReq c4wEnv
    ⟨"hello", 200, [], 1⟩ ⟨"hello", 200, [], 1⟩ rfl rfl rfl rfl rfl⟩

/-- Configuration for C7: results are stored and noise detection is on. -/
def c7Conf : DiferenciaConfiguration :=
  ⟨8080, "http://p", "http://s", "http://c", "/tmp/results.json", Strict, true, true,
    false, []⟩

/-- Request for C7. -/
def c7Req : Request := ⟨"GET", "/now"⟩

/-- Environment for C7: all three upstreams answer 200 with an empty JSON
object. -/
def c7Env : Env :=
  ⟨.ok ⟨"\x7b\x7d", 200, [], 1⟩, .ok ⟨"\x7b\x7d", 200, [], 1⟩,
    .ok ⟨"\x7b\x7d", 200, [], 1⟩⟩

/-- C7 evaluated at a failing input: the comparison reaches a verdict with
`StoreResults` set and `NoiseDetection` on, the Secondary really responded
(URL `http://s/now`, body, status 200), yet because the noise branch
shadows the outer secondary variables the exported record's secondary
interaction is the zero value `("", "", 0)`, not the real interaction. -/
theorem c7_exported_secondary_is_zero :
    c7Env.secondary = .ok ⟨"\x7b\x7d", 200, [], 1⟩ ∧
    CreateUrl c7Req.URL c7Conf.Secondary = "http://s/now" ∧
    (Diferencia c7Conf c7Req c7Env).err = none ∧
    (Diferencia c7Conf c7Req c7Env).exported =
      some ⟨⟨"http://p/now", "\x7b\x7d", 200⟩, ⟨"", "", 0⟩,
        ⟨"http://c/now", "\x7b\x7d", 200⟩, "Strict", true⟩ := by
  have h1 : CompareDocuments "\x7b\x7d" "\x7b\x7d" "Strict" = true := by
    simp [CompareDocuments, show parseJson "\x7b\x7d" = some (.obj []) from rfl,
      modeOfString, cmpJson, cmpFields]
  have hcmp : compareResult c7Conf "\x7b\x7d" "\x7b\x7d" 200 200 = true := by
    simp only [c7Conf]
    simp [compareResult, show Difference.String Strict = "Strict" from rfl, h1]
  simp only [c7Conf] at hcmp
  refine ⟨rfl, rfl, ?_, ?_⟩
  all_goals
    simp [Diferencia, c7Conf, c7Req, c7Env, isSafeOperation, CreateUrl,
      DiferenciaConfiguration.IsStoreResultsSet, CreateInteractions, CreateInteraction,
      show detectNoise "\x7b\x7d" "\x7b\x7d" = .ok [] from rfl,
      show removeNoise [] "\x7b\x7d" "\x7b\x7d" = ("\x7b\x7d", "\x7b\x7d") from rfl,
      show Difference.String Strict = "Strict" from rfl, hcmp]
  decide

/-- Configuration for C8: unsafe operations are not allowed. -/
def c8Conf : DiferenciaConfiguration :=
  ⟨8080, "http://p", "http://s", "http://c", "", Strict, false, false, false, []⟩

/-- Request for C8: a POST, which the safety gate rejects. -/
def c8Req : Request := ⟨"POST", "/x"⟩

/-- Environment for C8 (never consulted: the gate rejects first). -/
def c8Env : Env := ⟨.error "unused", .error "unused", .error "unused"⟩

/-- The MethodNotAllowed message produced for the C8 request. -/
def c8Msg : String := "Unsafe operations are not allowed and POST method has been received"

/-- C8 evaluated at a failing input: on a MethodNotAllowed error the
handler performs three `WriteHeader` calls — 405, then 500 (the error
branch lacks a `return`), then 412 (the verdict branch) — and the body
carries the message followed by the whole `err.Error()` text, so neither
"exactly one status code" nor "the error message as body" holds. -/
theorem c8_handler_writes_three_statuses :
    diferenciaHandler c8Conf c8Req c8Env =
      ⟨[405, 500, 412], c8Msg ++ ("with message: " ++ c8Msg ++ ", and code 405")⟩ ∧
    (diferenciaHandler c8Conf c8Req c8Env).statusWrites ≠ [405] ∧
    (diferenciaHandler c8Conf c8Req c8Env).body ≠ c8Msg := by
  refine ⟨rfl, by decide, by decide⟩

/-- Modelled from the spec: the `DiffReport` record (§3); empty strings
mean "no difference on this axis".  Field names follow the Go test file
(`result.Diff.BodyDiff`, `result.Diff.StatusDiff`). -/
structure DiffReport where
  BodyDiff : String
  StatusDiff : String
  HeaderDiff : String
deriving DecidableEq, Repr

/-- Modelled from the spec: the `Result` record (§3) that the richer
dispatcher returns; `proxy_test.go` reads `EqualContent`, `Diff` and the
elapsed-time fields. -/
structure Result where
  EqualContent : Bool
  Diff : DiffReport
  PrimaryElapsedTime : Int
  CandidateElapsedTime : Int
  SecondaryElapsedTime : Int
deriving DecidableEq, Repr

/-- ASCII lower-casing of one character. -/
def lowerChar (c : Char) : Char :=
  if 65 ≤ c.toNat && c.toNat ≤ 90 then Char.ofNat (c.toNat + 32) else c

/-- ASCII lower-casing of a header name. -/
def lowerStr (s : String) : String := String.mk (s.toList.map lowerChar)

/-- Lower-case header names for case-insensitive comparison. -/
def normHeaders (hs : List (String × List String)) : List (String × List String) :=
  hs.map (fun kv => (lowerStr kv.1, kv.2))

/-- Modelled from the spec: header maps compared as sets of
(name, ordered-values) pairs; names case-insensitively, value lists
byte-exact and order-sensitive (§4.5 step 6, §8). -/
def headersEqual (a b : List (String × List String)) : Bool :=
  (normHeaders a).all (fun kv => (normHeaders b).contains kv) &&
  (normHeaders b).all (fun kv => (normHeaders a).contains kv)

/-- Modelled from the spec: the header axis of the DiffReport — empty when
the maps agree, otherwise a summary naming the diverging headers. -/
def headerDiffOf (a b : List (String × List String)) : String :=
  if headersEqual a b then ""
  else
    "Different headers: " ++ String.intercalate ", "
      ((((normHeaders a).filter (fun kv => !(normHeaders b).contains kv)) ++
        ((normHeaders b).filter (fun kv => !(normHeaders a).contains kv))).map
        (fun kv => kv.1))

/-- Modelled from the spec: the status axis — `"<ps> vs <cs>"` exactly when
the status codes differ (§4.5 step 3). -/
def statusDiffOf (primaryStatus candidateStatus : Int) : String :=
  if primaryStatus == candidateStatus then ""
  else toString primaryStatus ++ " vs " ++ toString candidateStatus

/-- Modelled from the spec: the body axis — empty iff the configured-mode
comparison succeeds, otherwise a non-empty human-readable summary of
diverging paths (§4.5 step 5; the path list is the Strict divergence
walk). -/
def bodyDiffOf (mode : String) (primaryBody candidateBody : String) : String :=
  if CompareDocuments candidateBody primaryBody mode then ""
  else
    match parseJson primaryBody, parseJson candidateBody with
    | some pj, some cj =>
      "Body differs at: " ++ String.intercalate ", "
        (diffRun (primaryBody.length + candidateBody.length + 4) "" pj cj)
    | _, _ => "Body differs and is not JSON"

/-- Modelled from the spec: the noise-cancellation stage (§4.5 step 4):
with `NoiseDetection` off the raw Primary/Candidate bodies pass through;
with it on, require a successful Secondary call with Primary's status, run
`Detect`, overlay the manual `IgnoreValues`, and remove the paths from both
sides. -/
def noiseCleanup (conf : DiferenciaConfiguration) (r : Request) (env : Env)
    (primaryRes candidateRes : UpstreamResponse) :
    Except DiferenciaError (String × String) :=
  if conf.NoiseDetection then
    match env.secondary with
    | .error e =>
      .error ⟨503, "Error while connecting to Secondary site (" ++
        CreateUrl r.URL conf.Secondary ++ ") with error " ++ e⟩
    | .ok secondaryRes =>
      if primaryRes.status == secondaryRes.status then
        match detectNoise primaryRes.body secondaryRes.body with
        | .error e => .error ⟨400, "Error detecting noise (" ++ e ++ ")"⟩
        | .ok noisePaths =>
          .ok (removeNoise (noisePaths ++ conf.IgnoreValues)
            primaryRes.body candidateRes.body)
      else
        .error ⟨400, "Status code between Primary and Secondary are different"⟩
  else .ok (primaryRes.body, candidateRes.body)

/-- Modelled from the spec: assembly of the report (§4.5 steps 3, 5, 6, 7):
status diff from the raw statuses, body diff from the (possibly cleaned)
bodies under the configured mode, header diff only when `Headers` is set,
and `equalContent` iff every axis is empty. -/
def mkResult (conf : DiferenciaConfiguration) (env : Env)
    (primaryRes candidateRes : UpstreamResponse) (pBody cBody : String) : Result :=
  let statusDiff := statusDiffOf primaryRes.status candidateRes.status
  let bodyDiff := bodyDiffOf (Difference.String conf.DifferenceMode) pBody cBody
  let headerDiff :=
    if conf.Headers then headerDiffOf primaryRes.headers candidateRes.headers
    else ""
  { EqualContent := statusDiff == "" && (bodyDiff == "" && headerDiff == "")
    Diff := ⟨bodyDiff, statusDiff, headerDiff⟩
    PrimaryElapsedTime := primaryRes.elapsed
    CandidateElapsedTime := candidateRes.elapsed
    SecondaryElapsedTime :=
      match env.secondary with
      | .ok s => if conf.NoiseDetection then s.elapsed else 0
      | .error _ => 0 }

/-- Modelled from the spec: the `Result`-producing dispatcher of §4.5 — the
richer `Diferencia` that `proxy_test.go` exercises, whose Go source is not
in this snapshot.  Steps: safety gate, fan-out, noise cancellation
(`noiseCleanup`), report assembly (`mkResult`). -/
def DiferenciaSpec (conf : DiferenciaConfiguration) (r : Request) (env : Env) :
    Except DiferenciaError Result :=
  if !conf.AllowUnsafeOperations && !isSafeOperation r.Method then
    .error ⟨405, "Unsafe operations are not allowed and " ++ r.Method ++
      " method has been received"⟩
  else
    match env.primary with
    | .error e =>
      .error ⟨503, "Error while connecting to Primary site (" ++
        CreateUrl r.URL conf.Primary ++ ") with " ++ e⟩
    | .ok primaryRes =>
      match env.candidate with
      | .error e =>
        .error ⟨503, "Error while connecting to Candidate site (" ++
          CreateUrl r.URL conf.Candidate ++ ") with " ++ e⟩
      | .ok candidateRes =>
        match noiseCleanup conf r env primaryRes candidateRes with
        | .error de => .error de
        | .ok (pBody, cBody) =>
          .ok (mkResult conf env primaryRes candidateRes pBody cBody)

/-- Every successful `DiferenciaSpec` run returns the canonical report
built by `mkResult` from some pair of (possibly noise-cleaned) bodies. -/
theorem DiferenciaSpec_ok_shape {conf : DiferenciaConfiguration} {r : Request}
    {env : Env} {p c : UpstreamResponse} {res : Result}
    (hp : env.primary = .ok p) (hc : env.candidate = .ok c)
    (h : DiferenciaSpec conf r env = .ok res) :
    ∃ pBody cBody, res = mkResult conf env p c pBody cBody := by
  rw [DiferenciaSpec] at h
  by_cases hgate : (!conf.AllowUnsafeOperations && !isSafeOperation r.Method) = true
  · rw [if_pos hgate] at h
    exact Except.noConfusion h
  · rw [if_neg hgate] at h
    simp only [hp, hc] at h
    rcases hcl : noiseCleanup conf r env p c with de | ⟨pB, cB⟩
    · simp only [hcl] at h
      exact Except.noConfusion h
    · simp only [hcl] at h
      exact ⟨pB, cB, (Except.ok.inj h).symm⟩

theorem statusDiffOf_of_ne {ps cs : Int} (h : ps ≠ cs) :
    statusDiffOf ps cs = toString ps ++ " vs " ++ toString cs := by
  simp [statusDiffOf, h]

theorem vs_string_ne_empty (a b : String) : a ++ " vs " ++ b ≠ "" := by
  intro habs
  have hlen := congrArg String.length habs
  simp [String.length_append] at hlen
  exact absurd hlen.1.2 (by decide)

theorem headerDiffOf_ne_empty {a b : List (String × List String)}
    (h : headersEqual a b = false) : headerDiffOf a b ≠ "" := by
  intro habs
  rw [headerDiffOf, if_neg (by simp [h])] at habs
  have hlen := congrArg String.length habs
  simp [String.length_append] at hlen
  exact absurd hlen.1 (by decide)

theorem headerDiffOf_empty {a b : List (String × List String)}
    (h : headersEqual a b = true) : headerDiffOf a b = "" := by
  simp [headerDiffOf, h]

/-- C2 (spec-modelled dispatcher): differing Primary/Candidate status codes
do not abort the comparison — with noise detection off the run returns the
full report whose statusDiff is `"<ps> vs <cs>"`, whose verdict is false,
and whose body diff is still computed from the two bodies (with the header
diff present when enabled); and every report this run can return carries
the non-empty statusDiff and the false verdict. -/
theorem c2_status_diff_recorded (conf : DiferenciaConfiguration) (r : Request)
    (env : Env) (p c : UpstreamResponse)
    (hsafe : (!conf.AllowUnsafeOperations && !isSafeOperation r.Method) = false)
    (hp : env.primary = .ok p) (hc : env.candidate = .ok c)
    (hstatus : p.status ≠ c.status) :
    (conf.NoiseDetection = false →
      DiferenciaSpec conf r env = .ok (mkResult conf env p c p.body c.body) ∧
      (mkResult conf env p c p.body c.body).EqualContent = false ∧
      (mkResult conf env p c p.body c.body).Diff.StatusDiff =
        toString p.status ++ " vs " ++ toString c.status ∧
      (mkResult conf env p c p.body c.body).Diff.BodyDiff =
        bodyDiffOf (Difference.String conf.DifferenceMode) p.body c.body ∧
      (conf.Headers = true →
        (mkResult conf env p c p.body c.body).Diff.HeaderDiff =
          headerDiffOf p.headers c.headers)) ∧
    (∀ res, DiferenciaSpec conf r env = .ok res →
      res.EqualContent = false ∧
      res.Diff.StatusDiff = toString p.status ++ " vs " ++ toString c.status ∧
      res.Diff.StatusDiff ≠ "") := by
  have hsd := statusDiffOf_of_ne hstatus
  have hne := vs_string_ne_empty (toString p.status) (toString c.status)
  constructor
  · intro hnd
    refine ⟨?_, ?_, ?_, ?_, ?_⟩
    · rw [DiferenciaSpec, if_neg (by simp [hsafe])]
      simp only [hp, hc]
      simp [noiseCleanup, hnd]
    · simp [mkResult, hsd, beq_eq_false_iff_ne.mpr hne]
    · simp [mkResult, hsd]
    · simp [mkResult]
    · intro hh
      simp [mkResult, hh]
  · intro res h
    obtain ⟨pB, cB, rfl⟩ := DiferenciaSpec_ok_shape hp hc h
    refine ⟨?_, ?_, ?_⟩
    · simp [mkResult, hsd, beq_eq_false_iff_ne.mpr hne]
    · simp [mkResult, hsd]
    · simp [mkResult, hsd]
      exact hne

/-- Configuration for the C2 witness. -/
def c2Conf : DiferenciaConfiguration :=
  ⟨8080, "http://p", "http://s", "http://c", "", Strict, false, true, false, []⟩

/-- Request for the C2 witness. -/
def c2Req : Request := ⟨"GET", "/x"⟩

/-- Environment for the C2 witness: Primary 200 against Candidate 201. -/
def c2Env : Env :=
  ⟨.ok ⟨"1", 200, [], 1⟩, .ok ⟨"2", 201, [], 1⟩, .error "unused"⟩

/-- Witness for C2: statuses 200 vs 201 yield a returned report with the
recorded status diff and a false verdict. -/
theorem c2_status_diff_recorded_witness :
    DiferenciaSpec c2Conf c2Req c2Env =
      .ok (mkResult c2Conf c2Env ⟨"1", 200, [], 1⟩ ⟨"2", 201, [], 1⟩ "1" "2") ∧
    (mkResult c2Conf c2Env ⟨"1", 200, [], 1⟩ ⟨"2", 201, [], 1⟩ "1" "2").EqualContent
      = false ∧
    (mkResult c2Conf c2Env ⟨"1", 200, [], 1⟩ ⟨"2", 201, [], 1⟩ "1" "2").Diff.StatusDiff
      = "200 vs 201" := by
  have h := (c2_status_diff_recorded c2Conf c2Req c2Env ⟨"1", 200, [], 1⟩
    ⟨"2", 201, [], 1⟩ rfl rfl rfl (by decide)).1 rfl
  refine ⟨h.1, h.2.1, ?_⟩
  rw [show (mkResult c2Conf c2Env ⟨"1", 200, [], 1⟩ ⟨"2", 201, [], 1⟩ "1" "2").Diff.StatusDiff
    = toString (200 : Int) ++ " vs " ++ toString (201 : Int) from h.2.2.1]
  rfl

/-- C3 (spec-modelled dispatcher): with `Headers` enabled, whenever the two
header maps differ under case-insensitive names and byte-exact,
order-sensitive value lists, any returned report has a false verdict and a
non-empty headerDiff; when the maps agree on this criterion the headerDiff
is empty and the verdict is exactly the conjunction of the status and body
axes, unaffected by headers. -/
theorem c3_header_comparison (conf : DiferenciaConfiguration) (r : Request)
    (env : Env) (p c : UpstreamResponse)
    (hheaders : conf.Headers = true)
    (hp : env.primary = .ok p) (hc : env.candidate = .ok c) :
    (∀ res, DiferenciaSpec conf r env = .ok res →
      headersEqual p.headers c.headers = false →
      res.EqualContent = false ∧ res.Diff.HeaderDiff ≠ "") ∧
    (∀ res, DiferenciaSpec conf r env = .ok res →
      headersEqual p.headers c.headers = true →
      res.Diff.HeaderDiff = "" ∧
      res.EqualContent = (res.Diff.StatusDiff == "" && res.Diff.BodyDiff == "")) := by
  constructor
  · intro res h hne
    obtain ⟨pB, cB, rfl⟩ := DiferenciaSpec_ok_shape hp hc h
    have hnem := headerDiffOf_ne_empty hne
    constructor
    · simp [mkResult, hheaders, beq_eq_false_iff_ne.mpr hnem]
    · simpa [mkResult, hheaders] using hnem
  · intro res h heq
    obtain ⟨pB, cB, rfl⟩ := DiferenciaSpec_ok_shape hp hc h
    have hemp := headerDiffOf_empty heq
    constructor
    · simp [mkResult, hheaders, hemp]
    · simp [mkResult, hheaders, hemp]

/-- Configuration for the C3 witness: header comparison enabled. -/
def c3Conf : DiferenciaConfiguration :=
  ⟨8080, "http://p", "http://s", "http://c", "", Strict, false, false, true, []⟩

/-- Request for the C3 witness. -/
def c3Req : Request := ⟨"GET", "/x"⟩

/-- Primary response for the C3 witness. -/
def c3P : UpstreamResponse := ⟨"1", 200, [("Accept", ["text/html"])], 1⟩

/-- Candidate response for the C3 witness: same body and status, different
Accept header value. -/
def c3C : UpstreamResponse := ⟨"1", 200, [("Accept", ["text/plain"])], 1⟩

/-- Environment for the C3 witness. -/
def c3Env : Env := ⟨.ok c3P, .ok c3C, .error "unused"⟩

/-- Witness for C3: equal bodies and statuses but different Accept headers
yield a false verdict with non-empty headerDiff. -/
theorem c3_header_comparison_witness :
    (mkResult c3Conf c3Env c3P c3C "1" "1").EqualContent = false ∧
    (mkResult c3Conf c3Env c3P c3C "1" "1").Diff.HeaderDiff ≠ "" :=
  (c3_header_comparison c3Conf c3Req c3Env c3P c3C rfl rfl rfl).1
    (mkResult c3Conf c3Env c3P c3C "1" "1") rfl rfl

/-- Modelled from the spec: the string-valued update patch accepted by the
runtime-reconfiguration endpoint (§4.6); the Go zero value `""` marks a
field as absent, as in `proxy_test.go`'s `DiferenciaConfigurationUpdate`. -/
structure DiferenciaConfigurationUpdate where
  Primary : String := ""
  Secondary : String := ""
  Candidate : String := ""
  Mode : String := ""
  NoiseDetection : String := ""
  Headers : String := ""
deriving DecidableEq, Repr

/-- Modelled from the spec: strict boolean literal parsing — only the
literals "true" and "false" are accepted (§4.6). -/
def parseBoolStrict (s : String) : Except String Bool :=
  match s with
  | "true" => .ok true
  | "false" => .ok false
  | _ => .error ("Cannot parse " ++ s ++ " as a boolean")

/-- Parse phase of `UpdateConfiguration`: every present field is parsed;
the first failure aborts. -/
def parsedPatch (conf : DiferenciaConfiguration)
    (patch : DiferenciaConfigurationUpdate) :
    Except String (Difference × Bool × Bool) :=
  match (if patch.Mode == "" then .ok conf.DifferenceMode
         else NewDifference patch.Mode : Except String Difference) with
  | .error e => .error e
  | .ok mode =>
    match (if patch.NoiseDetection == "" then .ok conf.NoiseDetection
           else parseBoolStrict patch.NoiseDetection : Except String Bool) with
    | .error e => .error e
    | .ok noise =>
      match (if patch.Headers == "" then .ok conf.Headers
             else parseBoolStrict patch.Headers : Except String Bool) with
      | .error e => .error e
      | .ok headers => .ok (mode, noise, headers)

/-- Modelled from the spec: `UpdateConfiguration` (§4.6): parse every
present field, and only if all parses succeed commit all of them
atomically; on any parse failure return the error with the live
configuration unchanged.  The pair is (resulting configuration, error). -/
def UpdateConfiguration (conf : DiferenciaConfiguration)
    (patch : DiferenciaConfigurationUpdate) :
    DiferenciaConfiguration × Option String :=
  match parsedPatch conf patch with
  | .error e => (conf, some e)
  | .ok (mode, noise, headers) =>
    ({ conf with
        Primary := if patch.Primary == "" then conf.Primary else patch.Primary
        Secondary := if patch.Secondary == "" then conf.Secondary else patch.Secondary
        Candidate := if patch.Candidate == "" then conf.Candidate else patch.Candidate
        DifferenceMode := mode
        NoiseDetection := noise
        Headers := headers }, none)

/-- C9: if any present field of the patch fails to parse,
`UpdateConfiguration` returns an error and leaves every field of the live
configuration exactly as it was before the call; if all present fields
parse, all of them are committed. -/
theorem c9_update_configuration_atomic (conf : DiferenciaConfiguration)
    (patch : DiferenciaConfigurationUpdate) :
    ((patch.Mode ≠ "" ∧ (∃ e, NewDifference patch.Mode = .error e)) ∨
     (patch.NoiseDetection ≠ "" ∧
       (∃ e, parseBoolStrict patch.NoiseDetection = .error e)) ∨
     (patch.Headers ≠ "" ∧ (∃ e, parseBoolStrict patch.Headers = .error e)) →
      (UpdateConfiguration conf patch).2 ≠ none ∧
      (UpdateConfiguration conf patch).1 = conf) ∧
    (∀ e, (UpdateConfiguration conf patch).2 = some e →
      (UpdateConfiguration conf patch).1 = conf) ∧
    ((UpdateConfiguration conf patch).2 = none →
      ∃ mode noise headers,
        (if patch.Mode == "" then Except.ok conf.DifferenceMode
         else NewDifference patch.Mode) = .ok mode ∧
        (if patch.NoiseDetection == "" then Except.ok conf.NoiseDetection
         else parseBoolStrict patch.NoiseDetection) = .ok noise ∧
        (if patch.Headers == "" then Except.ok conf.Headers
         else parseBoolStrict patch.Headers) = .ok headers ∧
        (UpdateConfiguration conf patch).1 =
          { conf with
              Primary := if patch.Primary == "" then conf.Primary else patch.Primary
              Secondary := if patch.Secondary == "" then conf.Secondary
                else patch.Secondary
              Candidate := if patch.Candidate == "" then conf.Candidate
                else patch.Candidate
              DifferenceMode := mode
              NoiseDetection := noise
              Headers := headers }) := by
  refine ⟨?_, ?_, ?_⟩
  · intro hfail
    have herr : ∃ e, parsedPatch conf patch = .error e := by
      rcases hfail with ⟨hne, e, he⟩ | ⟨hne, e, he⟩ | ⟨hne, e, he⟩
      · exact ⟨e, by unfold parsedPatch; rw [if_neg (by simp [hne]), he]⟩
      · rcases hm : (if patch.Mode == "" then .ok conf.DifferenceMode
            else NewDifference patch.Mode : Except String Difference) with em | m
        · exact ⟨em, by unfold parsedPatch; rw [hm]⟩
        · exact ⟨e, by unfold parsedPatch; rw [hm, if_neg (by simp [hne]), he]⟩
      · rcases hm : (if patch.Mode == "" then .ok conf.DifferenceMode
            else NewDifference patch.Mode : Except String Difference) with em | m
        · exact ⟨em, by unfold parsedPatch; rw [hm]⟩
        · rcases hn : (if patch.NoiseDetection == "" then .ok conf.NoiseDetection
              else parseBoolStrict patch.NoiseDetection : Except String Bool) with en | n
          · exact ⟨en, by unfold parsedPatch; rw [hm, hn]⟩
          · exact ⟨e, by unfold parsedPatch; rw [hm, hn, if_neg (by simp [hne]), he]⟩
    obtain ⟨e, he⟩ := herr
    exact ⟨by simp [UpdateConfiguration, he], by simp [UpdateConfiguration, he]⟩
  · intro e he
    rcases hpp : parsedPatch conf patch with e2 | ⟨m, n, hh⟩
    · simp [UpdateConfiguration, hpp]
    · simp [UpdateConfiguration, hpp] at he
  · intro hnone
    rcases hpp : parsedPatch conf patch with e2 | ⟨m, n, hh⟩
    · simp [UpdateConfiguration, hpp] at hnone
    · have hinv : (if patch.Mode == "" then .ok conf.DifferenceMode
          else NewDifference patch.Mode : Except String Difference) = .ok m ∧
          (if patch.NoiseDetection == "" then .ok conf.NoiseDetection
            else parseBoolStrict patch.NoiseDetection : Except String Bool) = .ok n ∧
          (if patch.Headers == "" then .ok conf.Headers
            else parseBoolStrict patch.Headers : Except String Bool) = .ok hh := by
        unfold parsedPatch at hpp
        rcases hm : (if patch.Mode == "" then .ok conf.DifferenceMode
            else NewDifference patch.Mode : Except String Difference) with em | m2 <;>
          rw [hm] at hpp
        · simp at hpp
        · rcases hn : (if patch.NoiseDetection == "" then .ok conf.NoiseDetection
              else parseBoolStrict patch.NoiseDetection : Except String Bool) with en | n2 <;>
            rw [hn] at hpp
          · simp at hpp
          · rcases hh2 : (if patch.Headers == "" then .ok conf.Headers
                else parseBoolStrict patch.Headers : Except String Bool) with eh | h2 <;>
              rw [hh2] at hpp
            · simp at hpp
            · obtain ⟨rfl, rfl, rfl⟩ : m2 = m ∧ n2 = n ∧ h2 = hh := by
                simpa using hpp
              exact ⟨rfl, rfl, rfl⟩
      exact ⟨m, n, hh, hinv.1, hinv.2.1, hinv.2.2, by simp [UpdateConfiguration, hpp]⟩

/-- Configuration for the C9 witness. -/
def c9Conf : DiferenciaConfiguration :=
  ⟨8080, "http://p", "http://s", "http://c", "", Strict, false, false, false, []⟩

/-- Witness for C9: a patch with `Mode := "incorrect"` fails and leaves the
live configuration unchanged. -/
theorem c9_update_configuration_atomic_witness :
    (UpdateConfiguration c9Conf ⟨"", "", "", "incorrect", "", ""⟩).2 ≠ none ∧
    (UpdateConfiguration c9Conf ⟨"", "", "", "incorrect", "", ""⟩).1 = c9Conf :=
  (c9_update_configuration_atomic c9Conf ⟨"", "", "", "incorrect", "", ""⟩).1
    (.inl ⟨by decide, _, rfl⟩)
